import Mathlib

/-!
# Verification of the github_exporter collectors

Shallow embedding of the three Prometheus collectors of this repository
(the repository collector in `src/unnamed/part_000`, the issue collector
variant in `src/unnamed/part_001`, the issue collector in
`src/pkg/exporter/issues.go`, and the pull-request collector in
`src/pkg/exporter/pull_request.go`).

Go pointers to optional upstream fields are embedded as `Option`;
dereferencing a `nil` pointer (a Go panic) is embedded as the extraction
function returning `none`.  Metric gauge values (`float64` in the source,
always integral: page indices, counts, unix timestamps, bool encodings)
are embedded as `Int`.  `*time.Time` values rendered with `.String()` are
carried as their rendered `String` form.  The GitHub API client is a
parameter (`Api`), each call returning `Except Unit` results.
-/

/-- Model of `github.User` (go-github v35): only the `Login` pointer field
is read by the collectors. -/
structure User where
  login : Option String
deriving DecidableEq

/-- Model of `github.Label`: only the `Name` pointer field is read. -/
structure IssueLabel where
  name : Option String
deriving DecidableEq

/-- Model of `github.Reactions`: the three count pointer fields read by the
issue collectors. -/
structure Reactions where
  totalCount : Option Int
  plusOne : Option Int
  minusOne : Option Int
deriving DecidableEq

/-- Model of `github.Repository`, restricted to the fields read by
`RepoCollector.Collect` in `src/unnamed/part_000`.  Timestamps carry the
`Unix()` seconds of the `Timestamp` when present. -/
structure Repository where
  fullName : Option String
  name : Option String
  fork : Option Bool
  forksCount : Option Int
  networkCount : Option Int
  openIssuesCount : Option Int
  stargazersCount : Option Int
  subscribersCount : Option Int
  watchersCount : Option Int
  size : Option Int
  allowRebaseMerge : Option Bool
  allowSquashMerge : Option Bool
  allowMergeCommit : Option Bool
  archived : Option Bool
  privateFlag : Option Bool
  hasIssues : Option Bool
  hasWiki : Option Bool
  hasPages : Option Bool
  hasProjects : Option Bool
  hasDownloads : Option Bool
  pushedAt : Option Int
  createdAt : Option Int
  updatedAt : Option Int
deriving DecidableEq

/-- Model of `github.Issue`, restricted to the fields read by the issue
collectors.  `labels` models the `[]*github.Label` slice (elements are
pointers, hence `Option`).  The `*time.Time` timestamps are carried as
their `String()` rendering. -/
structure Issue where
  id : Option Int
  state : Option String
  locked : Option Bool
  title : Option String
  body : Option String
  user : Option User
  authorAssociation : Option String
  labels : List (Option IssueLabel)
  comments : Option Int
  createdAt : Option String
  updatedAt : Option String
  url : Option String
  htmlUrl : Option String
  reactions : Option Reactions
  assignee : Option User
deriving DecidableEq

/-- Model of `github.PullRequest`, restricted to the fields read by
`PullRequestCollector.Collect` in `src/pkg/exporter/pull_request.go`,
plus the `assignees` and `requested_reviewers` slices which the metric
names mention but the code never reads. -/
structure PullRequest where
  number : Option Int
  state : Option String
  title : Option String
  body : Option String
  createdAt : Option String
  labels : List (Option IssueLabel)
  user : Option User
  merged : Option Bool
  comments : Option Int
  commits : Option Int
  additions : Option Int
  deletions : Option Int
  changedFiles : Option Int
  htmlUrl : Option String
  reviewComments : Option Int
  assignee : Option User
  assignees : List (Option User)
  authorAssociation : Option String
  requestedReviewers : List (Option User)
deriving DecidableEq

/-- One emitted Prometheus sample: descriptor name, gauge value and the
ordered label values passed to `prometheus.MustNewConstMetric`. -/
structure Sample where
  metric : String
  value : Int
  labels : List String
deriving DecidableEq

/-- Observable output of one `Collect` poll: the label values of the
failure-counter increments in order, the emitted samples in order, and
the `(owner, repo)` arguments of each list-endpoint call in order. -/
structure Output where
  failures : List String
  samples : List Sample
  calls : List (String × String)
deriving DecidableEq

/-- The GitHub API client, as the collectors use it: issue list,
pull-request list, single-repository get, and repository search (the
search takes the owner of the `user:%s` query and the requested page,
returning the page's repositories and the `NextPage` index). -/
structure Api where
  listIssues : String → String → Except Unit (List (Option Issue))
  listPulls : String → String → Except Unit (List (Option PullRequest))
  getRepo : String → String → Except Unit Repository
  search : String → Nat → Except Unit (List (Option Repository) × Nat)

/-- `string_or_empty` from `src/unnamed/part_001` / `src/pkg/exporter/issues.go`:
a nil `*string` renders as `""`. -/
def string_or_empty : Option String → String
  | none => ""
  | some s => s

/-- `string_int_or_empty`: a nil `*int` renders as `""`, otherwise
`fmt.Sprint` of the value (decimal rendering). -/
def string_int_or_empty : Option Int → String
  | none => ""
  | some n => toString n

/-- `string_int64_or_empty`: a nil `*int64` renders as `""`, otherwise
`fmt.Sprint` of the value. -/
def string_int64_or_empty : Option Int → String
  | none => ""
  | some n => toString n

/-- `string_time_or_empty` from `src/unnamed/part_001`: a nil `*time.Time`
renders as `""`, otherwise `ptr.String()` (the record carries the rendered
string directly). -/
def string_time_or_empty : Option String → String
  | none => ""
  | some s => s

/-- `string_bool_or_empty` from `src/pkg/exporter/pull_request.go`: a nil
`*bool` renders as `""`, otherwise `strconv.FormatBool`. -/
def string_bool_or_empty : Option Bool → String
  | none => ""
  | some b => if b then "true" else "false"

/-- `boolToFloat64` from `src/unnamed/part_000` (gauge values kept as `Int`). -/
def boolToFloat64 (val : Bool) : Int :=
  if val then 1 else 0

/-- The `locked` label logic shared by `src/unnamed/part_001` (lines 99-104)
and `src/pkg/exporter/issues.go` (lines 314-319): start from `"true"`, a nil
`*bool` gives `""`, a false value gives `"false"`. -/
def lockedString : Option Bool → String
  | none => ""
  | some b => if b then "true" else "false"

/-- The `if record.X != nil { x = string_or_empty(record.X.Login) }` pattern
used for `Assignee` and `User`: absent user gives `""`. -/
def userLoginOrEmpty : Option User → String
  | none => ""
  | some u => string_or_empty u.login

/-- The label-name accumulation loop
`for _, git_label := range record.Labels { if git_label != nil { labels = append(labels, *git_label.Name) } }`:
nil slice elements are skipped, but `*git_label.Name` dereferences the
`Name` pointer unconditionally — a nil `Name` panics (`none`). -/
def gatherLabelNames : List (Option IssueLabel) → Option (List String)
  | [] => some []
  | none :: rest => gatherLabelNames rest
  | some l :: rest =>
    match l.name with
    | none => none
    | some n =>
      match gatherLabelNames rest with
      | none => none
      | some ns => some (n :: ns)

/-- The `if len(record.Labels) > 0 { label = string_or_empty(record.Labels[0].Name) }`
pattern: an empty slice leaves `""`; a nil first element panics on the
`.Name` field access; otherwise the possibly-nil name renders via
`string_or_empty`. -/
def firstLabelString : List (Option IssueLabel) → Option String
  | [] => some ""
  | none :: _ => none
  | some l :: _ => some (string_or_empty l.name)

/-- Model of Go `strings.Split(s, "/")` on the character list: splitting on
a single separator character, keeping empty segments (so `""` yields
`[""]` and `"justaname"` yields one segment). -/
def splitOnChar (sep : Char) : List Char → List (List Char)
  | [] => [[]]
  | c :: rest =>
    match splitOnChar sep rest with
    | [] => if c = sep then [[], []] else [[c]]
    | g :: gs => if c = sep then [] :: g :: gs else (c :: g) :: gs

/-- Model of `strings.Split(name, "/")` as used by every `Collect`. -/
def splitSlash (s : String) : List String :=
  (splitOnChar '/' s.toList).map fun cs => String.mk cs

/-- Model of `strings.Contains(repo, "*")` as used by `reposByOwnerAndName`. -/
def containsStar (s : String) : Bool :=
  s.toList.any fun c => c = '*'

/-- Modelled from the spec: the glob matcher of the
`github.com/ryanuber/go-glob` dependency is not under `src/`; the spec
defines matching as case-sensitive, `*` matching any run of characters,
anchored at both ends.  Fuel-indexed so that the recursion is structural;
each step shrinks `pattern.length + subj.length`, so the initial fuel in
`globMatch` always suffices. -/
def globAux : Nat → List Char → List Char → Bool
  | 0, _, _ => false
  | fuel + 1, p, s =>
    match p, s with
    | [], s => s.isEmpty
    | '*' :: ps, s =>
      globAux fuel ps s ||
        (match s with
         | [] => false
         | _ :: s' => globAux fuel ('*' :: ps) s')
    | c :: ps, d :: s' => c = d && globAux fuel ps s'
    | _ :: _, [] => false

/-- Modelled from the spec: `glob.Glob(pattern, subj)` of the go-glob
dependency (see `globAux`). -/
def globMatch (pattern subj : String) : Bool :=
  globAux (pattern.length + subj.length + 1) pattern.toList subj.toList

/-- Per-record label extraction of `IssueCollector.Collect` in
`src/unnamed/part_001` (lines 97-145): the 17 label values of the
`github_issues_all` sample.  The label-name loop runs first (it can panic
on a nil `Name`), then `record.Labels[0].Name`, and `record.Reactions` is
dereferenced without a nil check (lines 141-143), so an absent reactions
object panics (`none`). -/
def IssuesV1.extractRecord (r : Issue) : Option (List String) :=
  (gatherLabelNames r.labels).bind fun _ =>
  (firstLabelString r.labels).bind fun label =>
  r.reactions.bind fun reactions =>
  some [string_int64_or_empty r.id, string_or_empty r.state, lockedString r.locked,
        string_or_empty r.title, string_or_empty r.body, userLoginOrEmpty r.user,
        string_or_empty r.authorAssociation, label, string_int_or_empty r.comments,
        string_time_or_empty r.createdAt, string_time_or_empty r.updatedAt,
        string_or_empty r.url, string_or_empty r.htmlUrl,
        string_int_or_empty reactions.totalCount, string_int_or_empty reactions.plusOne,
        string_int_or_empty reactions.minusOne, userLoginOrEmpty r.assignee]

/-- Per-record label extraction of `IssueCollector.Collect` in
`src/pkg/exporter/issues.go` (lines 237-363): as in `src/unnamed/part_001`
but the `created_at`/`updated_at` labels are the literal `""` (the
rendering calls are commented out, lines 353-356). -/
def Issues.extractRecord (r : Issue) : Option (List String) :=
  (gatherLabelNames r.labels).bind fun _ =>
  (firstLabelString r.labels).bind fun label =>
  r.reactions.bind fun reactions =>
  some [string_int64_or_empty r.id, string_or_empty r.state, lockedString r.locked,
        string_or_empty r.title, string_or_empty r.body, userLoginOrEmpty r.user,
        string_or_empty r.authorAssociation, label, string_int_or_empty r.comments,
        "", "",
        string_or_empty r.url, string_or_empty r.htmlUrl,
        string_int_or_empty reactions.totalCount, string_int_or_empty reactions.plusOne,
        string_int_or_empty reactions.minusOne, userLoginOrEmpty r.assignee]

/-- Per-record label extraction of `PullRequestCollector.Collect` in
`src/pkg/exporter/pull_request.go` (lines 93-158): the 19 label values of
the `github_pull_requests_all` sample.  The `assignees` (position 16) and
`requested_reviewers` (position 18) labels are the literal `""`. -/
def PullRequests.extractRecord (r : PullRequest) : Option (List String) :=
  (gatherLabelNames r.labels).bind fun _ =>
  (firstLabelString r.labels).bind fun label =>
  some [string_int_or_empty r.number, string_or_empty r.state, string_or_empty r.title,
        string_or_empty r.body, string_time_or_empty r.createdAt, label,
        userLoginOrEmpty r.user, string_bool_or_empty r.merged,
        string_int_or_empty r.comments, string_int_or_empty r.commits,
        string_int_or_empty r.additions, string_int_or_empty r.deletions,
        string_int_or_empty r.changedFiles, string_or_empty r.htmlUrl,
        string_int_or_empty r.reviewComments, userLoginOrEmpty r.assignee, "",
        string_or_empty r.authorAssociation, ""]

/-- The record loop of `issues.go` `Collect` (lines 237-502): one
`github_issues_all` sample per record with the page position `i` as gauge
value.  There is no `record == nil` check, so a nil record panics on the
first field access (`record.ID`, line 238). -/
def Issues.recordsSamples : Nat → List (Option Issue) → Option (List Sample)
  | _, [] => some []
  | _, none :: _ => none
  | i, some r :: rest =>
    match Issues.extractRecord r with
    | none => none
    | some ls =>
      match Issues.recordsSamples (i + 1) rest with
      | none => none
      | some ss => some (⟨"github_issues_all", (i : Int), ls⟩ :: ss)

/-- The record loop of `pull_request.go` `Collect` (lines 93-160): nil
records are skipped (`if record == nil { continue }`, the range index
still advances). -/
def PullRequests.recordsSamples : Nat → List (Option PullRequest) → Option (List Sample)
  | _, [] => some []
  | i, none :: rest => PullRequests.recordsSamples (i + 1) rest
  | i, some r :: rest =>
    match PullRequests.extractRecord r with
    | none => none
    | some ls =>
      match PullRequests.recordsSamples (i + 1) rest with
      | none => none
      | some ss => some (⟨"github_pull_requests_all", (i : Int), ls⟩ :: ss)

/-- One iteration of `IssueCollector.Collect` in `issues.go` (lines
206-235): split the configured entry on `/`; anything but exactly two
segments increments the failure counter (label `"repo"`) and moves on;
otherwise `Issues.ListByRepo(ctx, owner, repo, nil)` is called with the
raw segments, an error increments the counter, success emits the record
samples. -/
def Issues.collectOne (api : Api) (acc : Output) (name : String) : Option Output :=
  match splitSlash name with
  | [owner, repo] =>
    match api.listIssues owner repo with
    | .error _ =>
      some { acc with failures := acc.failures ++ ["repo"],
                      calls := acc.calls ++ [(owner, repo)] }
    | .ok records =>
      match Issues.recordsSamples 0 records with
      | none => none
      | some ss =>
        some { acc with samples := acc.samples ++ ss,
                        calls := acc.calls ++ [(owner, repo)] }
  | _ => some { acc with failures := acc.failures ++ ["repo"] }

/-- `IssueCollector.Collect` over the configured repo entries. -/
def Issues.Collect (api : Api) : List String → Output → Option Output
  | [], acc => some acc
  | name :: rest, acc =>
    match Issues.collectOne api acc name with
    | none => none
    | some acc' => Issues.Collect api rest acc'

/-- One iteration of `PullRequestCollector.Collect` in `pull_request.go`
(lines 62-91): same shape as the issue collector, calling
`PullRequests.List(ctx, owner, repo, nil)` with the raw segments. -/
def PullRequests.collectOne (api : Api) (acc : Output) (name : String) : Option Output :=
  match splitSlash name with
  | [owner, repo] =>
    match api.listPulls owner repo with
    | .error _ =>
      some { acc with failures := acc.failures ++ ["repo"],
                      calls := acc.calls ++ [(owner, repo)] }
    | .ok records =>
      match PullRequests.recordsSamples 0 records with
      | none => none
      | some ss =>
        some { acc with samples := acc.samples ++ ss,
                        calls := acc.calls ++ [(owner, repo)] }
  | _ => some { acc with failures := acc.failures ++ ["repo"] }

/-- `PullRequestCollector.Collect` over the configured repo entries. -/
def PullRequests.Collect (api : Api) : List String → Output → Option Output
  | [], acc => some acc
  | name :: rest, acc =>
    match PullRequests.collectOne api acc name with
    | none => none
    | some acc' => PullRequests.Collect api rest acc'

/-- The search pagination loop of `RepoCollector.reposByOwnerAndName` in
`src/unnamed/part_000` (lines 518-539): call `Search.Repositories` with
the current page, append the page's repositories, stop when
`resp.NextPage == 0`, otherwise continue from `resp.NextPage`.  Fuel makes
the recursion structural (`none` = the fuel ran out, the loop would still
be running); the first component lists the pages requested, in order. -/
def Repos.searchLoop (api : Api) (owner : String) :
    Nat → Nat → Option (List Nat × Except Unit (List (Option Repository)))
  | 0, _ => none
  | fuel + 1, page =>
    match api.search owner page with
    | .error e => some ([page], .error e)
    | .ok (rs, np) =>
      if np = 0 then some ([page], .ok rs)
      else
        match Repos.searchLoop api owner fuel np with
        | none => none
        | some (ps, .error e) => some (page :: ps, .error e)
        | some (ps, .ok acc) => some (page :: ps, .ok (rs ++ acc))

/-- `RepoCollector.reposByOwnerAndName` (part_000 lines 506-553): a name
containing `*` triggers the paginated search starting at page 0; otherwise
`Repositories.Get` fetches the single named repository, returned as a
one-element list. -/
def Repos.reposByOwnerAndName (api : Api) (fuel : Nat) (owner repo : String) :
    Option (Except Unit (List (Option Repository))) :=
  if containsStar repo then
    match Repos.searchLoop api owner fuel 0 with
    | none => none
    | some (_, res) => some res
  else
    match api.getRepo owner repo with
    | .error e => some (.error e)
    | .ok r => some (.ok [some r])

/-- Per-record processing of `RepoCollector.Collect` (part_000 lines
289-502).  `*record.FullName` is dereferenced for the glob filter before
any check; non-matching records contribute nothing; matching records
dereference `*record.Name`, emit one gauge per present optional field,
then dereference `record.PushedAt`/`CreatedAt`/`UpdatedAt` without nil
checks (lines 469-488) and finally emit the `github_repo_all` sample with
the page position as value and the seven count strings as labels. -/
def Repos.recordSamples (name owner : String) (i : Nat) (r : Repository) :
    Option (List Sample) :=
  match r.fullName with
  | none => none
  | some fullName =>
    if globMatch name fullName then
      match r.name with
      | none => none
      | some rname =>
        let labels := [owner, rname]
        let forks := string_int_or_empty r.forksCount
        let networks := string_int_or_empty r.networkCount
        let issues := string_int_or_empty r.openIssuesCount
        let stargazers := string_int_or_empty r.stargazersCount
        let subscribers := string_int_or_empty r.subscribersCount
        let watchers := string_int_or_empty r.watchersCount
        let size := string_int_or_empty r.size
        let condSamples : List Sample :=
          (match r.fork with
           | none => [] | some b => [⟨"github_repo_forked", boolToFloat64 b, labels⟩]) ++
          (match r.forksCount with
           | none => [] | some v => [⟨"github_repo_forks", v, labels⟩]) ++
          (match r.networkCount with
           | none => [] | some v => [⟨"github_repo_network", v, labels⟩]) ++
          (match r.openIssuesCount with
           | none => [] | some v => [⟨"github_repo_issues", v, labels⟩]) ++
          (match r.stargazersCount with
           | none => [] | some v => [⟨"github_repo_stargazers", v, labels⟩]) ++
          (match r.subscribersCount with
           | none => [] | some v => [⟨"github_repo_subscribers", v, labels⟩]) ++
          (match r.watchersCount with
           | none => [] | some v => [⟨"github_repo_watchers", v, labels⟩]) ++
          (match r.size with
           | none => [] | some v => [⟨"github_repo_size", v, labels⟩]) ++
          (match r.allowRebaseMerge with
           | none => [] | some b => [⟨"github_repo_allow_rebase_merge", boolToFloat64 b, labels⟩]) ++
          (match r.allowSquashMerge with
           | none => [] | some b => [⟨"github_repo_allow_squash_merge", boolToFloat64 b, labels⟩]) ++
          (match r.allowMergeCommit with
           | none => [] | some b => [⟨"github_repo_allow_merge_commit", boolToFloat64 b, labels⟩]) ++
          (match r.archived with
           | none => [] | some b => [⟨"github_repo_archived", boolToFloat64 b, labels⟩]) ++
          (match r.privateFlag with
           | none => [] | some b => [⟨"github_repo_private", boolToFloat64 b, labels⟩]) ++
          (match r.hasIssues with
           | none => [] | some b => [⟨"github_repo_has_issues", boolToFloat64 b, labels⟩]) ++
          (match r.hasWiki with
           | none => [] | some b => [⟨"github_repo_has_wiki", boolToFloat64 b, labels⟩]) ++
          (match r.hasPages with
           | none => [] | some b => [⟨"github_repo_has_pages", boolToFloat64 b, labels⟩]) ++
          (match r.hasProjects with
           | none => [] | some b => [⟨"github_repo_has_projects", boolToFloat64 b, labels⟩]) ++
          (match r.hasDownloads with
           | none => [] | some b => [⟨"github_repo_has_downloads", boolToFloat64 b, labels⟩])
        match r.pushedAt with
        | none => none
        | some pu =>
          match r.createdAt with
          | none => none
          | some cr =>
            match r.updatedAt with
            | none => none
            | some up =>
              some (condSamples ++
                [⟨"github_repo_pushed_timestamp", pu, labels⟩,
                 ⟨"github_repo_created_timestamp", cr, labels⟩,
                 ⟨"github_repo_updated_timestamp", up, labels⟩,
                 ⟨"github_repo_all", (i : Int),
                  [forks, networks, issues, stargazers, subscribers, watchers, size]⟩])
    else some []

/-- The record loop of `RepoCollector.Collect` (part_000 line 289): no
`record == nil` check, so a nil record panics on `*record.FullName`. -/
def Repos.recordsSamples (name owner : String) :
    Nat → List (Option Repository) → Option (List Sample)
  | _, [] => some []
  | _, none :: _ => none
  | i, some r :: rest =>
    match Repos.recordSamples name owner i r with
    | none => none
    | some ss1 =>
      match Repos.recordsSamples name owner (i + 1) rest with
      | none => none
      | some ss => some (ss1 ++ ss)

/-- One iteration of `RepoCollector.Collect` (part_000 lines 256-287):
split on `/`; a malformed entry increments the failure counter (label
`"repo"`); then `reposByOwnerAndName` resolves the target, an error
increments the counter, success runs the record loop. -/
def Repos.collectOne (api : Api) (fuel : Nat) (acc : Output) (name : String) :
    Option Output :=
  match splitSlash name with
  | [owner, repo] =>
    match Repos.reposByOwnerAndName api fuel owner repo with
    | none => none
    | some (.error _) => some { acc with failures := acc.failures ++ ["repo"] }
    | some (.ok records) =>
      match Repos.recordsSamples name owner 0 records with
      | none => none
      | some ss => some { acc with samples := acc.samples ++ ss }
  | _ => some { acc with failures := acc.failures ++ ["repo"] }

/-- `RepoCollector.Collect` over the configured repo entries. -/
def Repos.Collect (api : Api) (fuel : Nat) : List String → Output → Option Output
  | [], acc => some acc
  | name :: rest, acc =>
    match Repos.collectOne api fuel acc name with
    | none => none
    | some acc' => Repos.Collect api fuel rest acc'

/-- An issue whose optional `Reactions` object is absent upstream
(every other pointer field `nil` as well, labels empty). -/
def issueNoReactions : Issue :=
  { id := some 7, state := some "open", locked := some false, title := some "t",
    body := none, user := none, authorAssociation := none, labels := [],
    comments := none, createdAt := none, updatedAt := none, url := none,
    htmlUrl := none, reactions := none, assignee := none }

/-- A repository whose `PushedAt` timestamp is absent upstream (name fields
present, so the record reaches the unchecked timestamp dereference). -/
def repoNoPushed : Repository :=
  { fullName := some "o/r", name := some "r", fork := none, forksCount := none,
    networkCount := none, openIssuesCount := none, stargazersCount := none,
    subscribersCount := none, watchersCount := none, size := none,
    allowRebaseMerge := none, allowSquashMerge := none, allowMergeCommit := none,
    archived := none, privateFlag := none, hasIssues := none, hasWiki := none,
    hasPages := none, hasProjects := none, hasDownloads := none,
    pushedAt := none, createdAt := some 5, updatedAt := some 6 }

/-- C1: the claim says every pointer field, including the reactions object
and the pushed/created/updated timestamps, is checked for absence before
being dereferenced, so extraction never panics on absent optional fields.
The code does not check them: `record.Reactions.TotalCount`
(part_001 lines 141-143) and `record.PushedAt.Unix()` (part_000 lines
469-488) dereference nil pointers, and the embedded extraction panics
(`none`) on records whose reactions object or pushed timestamp is absent. -/
theorem c1_nil_dereference_panics :
    IssuesV1.extractRecord issueNoReactions = none ∧
    Repos.recordSamples "o/r" "o" 0 repoNoPushed = none := by
  constructor <;> rfl

/-- C2: whenever the part_001 issue extraction succeeds, the emitted
`github_issues_all` sample has exactly 17 labels, and every optional field
that is absent upstream renders as the empty-string label (never a missing
label). -/
theorem c2_absent_fields_render_empty (r : Issue) (ls : List String)
    (h : IssuesV1.extractRecord r = some ls) :
    ls.length = 17 ∧
    (r.id = none → ls.get? 0 = some "") ∧
    (r.state = none → ls.get? 1 = some "") ∧
    (r.locked = none → ls.get? 2 = some "") ∧
    (r.title = none → ls.get? 3 = some "") ∧
    (r.body = none → ls.get? 4 = some "") ∧
    (r.user = none → ls.get? 5 = some "") ∧
    (∀ u, r.user = some u → u.login = none → ls.get? 5 = some "") ∧
    (r.authorAssociation = none → ls.get? 6 = some "") ∧
    (r.labels = [] → ls.get? 7 = some "") ∧
    (r.comments = none → ls.get? 8 = some "") ∧
    (r.createdAt = none → ls.get? 9 = some "") ∧
    (r.updatedAt = none → ls.get? 10 = some "") ∧
    (r.url = none → ls.get? 11 = some "") ∧
    (r.htmlUrl = none → ls.get? 12 = some "") ∧
    (∀ re, r.reactions = some re → re.totalCount = none → ls.get? 13 = some "") ∧
    (∀ re, r.reactions = some re → re.plusOne = none → ls.get? 14 = some "") ∧
    (∀ re, r.reactions = some re → re.minusOne = none → ls.get? 15 = some "") ∧
    (r.assignee = none → ls.get? 16 = some "") ∧
    (∀ u, r.assignee = some u → u.login = none → ls.get? 16 = some "") := by
  simp only [IssuesV1.extractRecord, Option.bind_eq_some, Option.some.injEq] at h
  obtain ⟨ns, hg, label, hl, reactions, hre, hls⟩ := h
  subst hls
  refine ⟨rfl, ?_, ?_, ?_, ?_, ?_, ?_, ?_, ?_, ?_, ?_, ?_, ?_, ?_, ?_, ?_, ?_, ?_, ?_, ?_⟩
  · intro hx; simp [hx, string_int64_or_empty]
  · intro hx; simp [hx, string_or_empty]
  · intro hx; simp [hx, lockedString]
  · intro hx; simp [hx, string_or_empty]
  · intro hx; simp [hx, string_or_empty]
  · intro hx; simp [hx, userLoginOrEmpty]
  · intro u hu hx; simp [hu, hx, userLoginOrEmpty, string_or_empty]
  · intro hx; simp [hx, string_or_empty]
  · intro hx; rw [hx] at hl; simp only [firstLabelString, Option.some.injEq] at hl
    simp [← hl]
  · intro hx; simp [hx, string_int_or_empty]
  · intro hx; simp [hx, string_time_or_empty]
  · intro hx; simp [hx, string_time_or_empty]
  · intro hx; simp [hx, string_or_empty]
  · intro hx; simp [hx, string_or_empty]
  · intro re hre2 hx; rw [hre] at hre2; injection hre2 with he; subst he
    simp [hx, string_int_or_empty]
  · intro re hre2 hx; rw [hre] at hre2; injection hre2 with he; subst he
    simp [hx, string_int_or_empty]
  · intro re hre2 hx; rw [hre] at hre2; injection hre2 with he; subst he
    simp [hx, string_int_or_empty]
  · intro hx; simp [hx, userLoginOrEmpty]
  · intro u hu hx; simp [hu, hx, userLoginOrEmpty, string_or_empty]

/-- An issue with every optional field absent (reactions object present
with all three counts absent, so extraction succeeds). -/
def wIssueAllAbsent : Issue :=
  { id := none, state := none, locked := none, title := none, body := none,
    user := none, authorAssociation := none, labels := [], comments := none,
    createdAt := none, updatedAt := none, url := none, htmlUrl := none,
    reactions := some { totalCount := none, plusOne := none, minusOne := none },
    assignee := none }

/-- Witness for C2: the all-absent issue extracts to 17 empty-string
labels, and the theorem's conclusions hold there. -/
theorem c2_witness :
    (["", "", "", "", "", "", "", "", "", "", "", "", "", "", "", "", ""] :
        List String).length = 17 ∧
    (wIssueAllAbsent.id = none →
      (["", "", "", "", "", "", "", "", "", "", "", "", "", "", "", "", ""] :
          List String).get? 0 = some "") ∧
    (wIssueAllAbsent.state = none →
      (["", "", "", "", "", "", "", "", "", "", "", "", "", "", "", "", ""] :
          List String).get? 1 = some "") ∧
    (wIssueAllAbsent.locked = none →
      (["", "", "", "", "", "", "", "", "", "", "", "", "", "", "", "", ""] :
          List String).get? 2 = some "") ∧
    (wIssueAllAbsent.title = none →
      (["", "", "", "", "", "", "", "", "", "", "", "", "", "", "", "", ""] :
          List String).get? 3 = some "") ∧
    (wIssueAllAbsent.body = none →
      (["", "", "", "", "", "", "", "", "", "", "", "", "", "", "", "", ""] :
          List String).get? 4 = some "") ∧
    (wIssueAllAbsent.user = none →
      (["", "", "", "", "", "", "", "", "", "", "", "", "", "", "", "", ""] :
          List String).get? 5 = some "") ∧
    (∀ u, wIssueAllAbsent.user = some u → u.login = none →
      (["", "", "", "", "", "", "", "", "", "", "", "", "", "", "", "", ""] :
          List String).get? 5 = some "") ∧
    (wIssueAllAbsent.authorAssociation = none →
      (["", "", "", "", "", "", "", "", "", "", "", "", "", "", "", "", ""] :
          List String).get? 6 = some "") ∧
    (wIssueAllAbsent.labels = [] →
      (["", "", "", "", "", "", "", "", "", "", "", "", "", "", "", "", ""] :
          List String).get? 7 = some "") ∧
    (wIssueAllAbsent.comments = none →
      (["", "", "", "", "", "", "", "", "", "", "", "", "", "", "", "", ""] :
          List String).get? 8 = some "") ∧
    (wIssueAllAbsent.createdAt = none →
      (["", "", "", "", "", "", "", "", "", "", "", "", "", "", "", "", ""] :
          List String).get? 9 = some "") ∧
    (wIssueAllAbsent.updatedAt = none →
      (["", "", "", "", "", "", "", "", "", "", "", "", "", "", "", "", ""] :
          List String).get? 10 = some "") ∧
    (wIssueAllAbsent.url = none →
      (["", "", "", "", "", "", "", "", "", "", "", "", "", "", "", "", ""] :
          List String).get? 11 = some "") ∧
    (wIssueAllAbsent.htmlUrl = none →
      (["", "", "", "", "", "", "", "", "", "", "", "", "", "", "", "", ""] :
          List String).get? 12 = some "") ∧
    (∀ re, wIssueAllAbsent.reactions = some re → re.totalCount = none →
      (["", "", "", "", "", "", "", "", "", "", "", "", "", "", "", "", ""] :
          List String).get? 13 = some "") ∧
    (∀ re, wIssueAllAbsent.reactions = some re → re.plusOne = none →
      (["", "", "", "", "", "", "", "", "", "", "", "", "", "", "", "", ""] :
          List String).get? 14 = some "") ∧
    (∀ re, wIssueAllAbsent.reactions = some re → re.minusOne = none →
      (["", "", "", "", "", "", "", "", "", "", "", "", "", "", "", "", ""] :
          List String).get? 15 = some "") ∧
    (wIssueAllAbsent.assignee = none →
      (["", "", "", "", "", "", "", "", "", "", "", "", "", "", "", "", ""] :
          List String).get? 16 = some "") ∧
    (∀ u, wIssueAllAbsent.assignee = some u → u.login = none →
      (["", "", "", "", "", "", "", "", "", "", "", "", "", "", "", "", ""] :
          List String).get? 16 = some "") :=
  c2_absent_fields_render_empty wIssueAllAbsent
    ["", "", "", "", "", "", "", "", "", "", "", "", "", "", "", "", ""] rfl

/-- C10: whenever the pull-request extraction succeeds, the emitted
`github_pull_requests_all` sample has 19 labels and the `assignees`
(position 16) and `requested_reviewers` (position 18) label values are the
empty string, regardless of the record's contents. -/
theorem c10_assignees_reviewers_always_empty (r : PullRequest) (ls : List String)
    (h : PullRequests.extractRecord r = some ls) :
    ls.length = 19 ∧ ls.get? 16 = some "" ∧ ls.get? 18 = some "" := by
  simp only [PullRequests.extractRecord, Option.bind_eq_some, Option.some.injEq] at h
  obtain ⟨ns, hg, label, hl, hls⟩ := h
  subst hls
  exact ⟨rfl, rfl, rfl⟩

/-- A pull request that does have assignees and requested reviewers. -/
def wPullWithAssignees : PullRequest :=
  { number := some 12, state := some "open", title := some "t", body := none,
    createdAt := none, labels := [], user := none, merged := some false,
    comments := none, commits := none, additions := none, deletions := none,
    changedFiles := none, htmlUrl := none, reviewComments := none,
    assignee := some { login := some "alice" },
    assignees := [some { login := some "alice" }],
    authorAssociation := none,
    requestedReviewers := [some { login := some "bob" }] }

/-- Witness for C10: even with assignees and requested reviewers present,
positions 16 and 18 of the emitted label list are `""`. -/
theorem c10_witness :
    (["12", "open", "t", "", "", "", "", "false", "", "", "", "", "", "", "",
      "alice", "", "", ""] : List String).length = 19 ∧
    (["12", "open", "t", "", "", "", "", "false", "", "", "", "", "", "", "",
      "alice", "", "", ""] : List String).get? 16 = some "" ∧
    (["12", "open", "t", "", "", "", "", "false", "", "", "", "", "", "", "",
      "alice", "", "", ""] : List String).get? 18 = some "" :=
  c10_assignees_reviewers_always_empty wPullWithAssignees
    ["12", "open", "t", "", "", "", "", "false", "", "", "", "", "", "", "",
     "alice", "", "", ""] rfl

/-- A repository whose full name does not match any `owner/name` target
used in the witnesses (so the glob filter drops it without reading
further fields). -/
def wMismatchRepo : Repository :=
  { fullName := some "x", name := none, fork := none, forksCount := none,
    networkCount := none, openIssuesCount := none, stargazersCount := none,
    subscribersCount := none, watchersCount := none, size := none,
    allowRebaseMerge := none, allowSquashMerge := none, allowMergeCommit := none,
    archived := none, privateFlag := none, hasIssues := none, hasWiki := none,
    hasPages := none, hasProjects := none, hasDownloads := none,
    pushedAt := none, createdAt := none, updatedAt := none }

/-- An API whose list calls succeed with empty pages and whose single-get
succeeds. -/
def wApiOkEmpty : Api :=
  { listIssues := fun _ _ => .ok [], listPulls := fun _ _ => .ok [],
    getRepo := fun _ _ => .ok wMismatchRepo, search := fun _ _ => .ok ([], 0) }

/-- An API whose every call fails with a transport error. -/
def wApiErr : Api :=
  { listIssues := fun _ _ => .error (), listPulls := fun _ _ => .error (),
    getRepo := fun _ _ => .error (), search := fun _ _ => .error () }

/-- C5: a configured entry that does not split on `/` into exactly two
segments increments the failure counter by exactly one, contributes zero
samples and zero API calls, and the poll continues with the remaining
targets — for the repository collector and the issue collector alike. -/
theorem c5_malformed_entry (api : Api) (fuel : Nat) (name : String)
    (rest : List String) (acc : Output)
    (h : (splitSlash name).length ≠ 2) :
    Repos.Collect api fuel (name :: rest) acc =
      Repos.Collect api fuel rest { acc with failures := acc.failures ++ ["repo"] } ∧
    Issues.Collect api (name :: rest) acc =
      Issues.Collect api rest { acc with failures := acc.failures ++ ["repo"] } := by
  have hr : Repos.collectOne api fuel acc name =
      some { acc with failures := acc.failures ++ ["repo"] } := by
    unfold Repos.collectOne
    rcases hs : splitSlash name with _ | ⟨a, _ | ⟨b, _ | ⟨c, l⟩⟩⟩ <;>
      first
      | rfl
      | (exfalso; apply h; rw [hs]; rfl)
  have hi : Issues.collectOne api acc name =
      some { acc with failures := acc.failures ++ ["repo"] } := by
    unfold Issues.collectOne
    rcases hs : splitSlash name with _ | ⟨a, _ | ⟨b, _ | ⟨c, l⟩⟩⟩ <;>
      first
      | rfl
      | (exfalso; apply h; rw [hs]; rfl)
  constructor
  · simp only [Repos.Collect]
    rw [hr]
  · simp only [Issues.Collect]
    rw [hi]

/-- Witness for C5: the entry `"justaname"` adds exactly one `"repo"`
failure increment, no samples and no calls, for both collectors. -/
theorem c5_witness :
    Repos.Collect wApiOkEmpty 1 ["justaname"] ⟨[], [], []⟩ =
      Repos.Collect wApiOkEmpty 1 [] ⟨["repo"], [], []⟩ ∧
    Issues.Collect wApiOkEmpty ["justaname"] ⟨[], [], []⟩ =
      Issues.Collect wApiOkEmpty [] ⟨["repo"], [], []⟩ :=
  c5_malformed_entry wApiOkEmpty 1 "justaname" [] ⟨[], [], []⟩ (by decide)

/-- C6: a transport error on one target's list (or resolution) call makes
exactly one failure increment and exactly one list call (no retry within
the poll), contributes no samples for that target, and the remaining
targets are processed exactly as they would have been. -/
theorem c6_transport_error_skips_target (api : Api) (fuel : Nat)
    (name owner repo : String) (rest : List String) (acc : Output)
    (hs : splitSlash name = [owner, repo])
    (herr : api.listIssues owner repo = Except.error ()) :
    (Issues.Collect api (name :: rest) acc =
       Issues.Collect api rest
         { acc with failures := acc.failures ++ ["repo"],
                    calls := acc.calls ++ [(owner, repo)] }) ∧
    (Repos.reposByOwnerAndName api fuel owner repo = some (Except.error ()) →
     Repos.Collect api fuel (name :: rest) acc =
       Repos.Collect api fuel rest { acc with failures := acc.failures ++ ["repo"] }) := by
  constructor
  · have hc : Issues.collectOne api acc name =
        some { acc with failures := acc.failures ++ ["repo"],
                        calls := acc.calls ++ [(owner, repo)] } := by
      simp only [Issues.collectOne, hs, herr]
    simp only [Issues.Collect]
    rw [hc]
  · intro hres
    have hc : Repos.collectOne api fuel acc name =
        some { acc with failures := acc.failures ++ ["repo"] } := by
      simp only [Repos.collectOne, hs, hres]
    simp only [Repos.Collect]
    rw [hc]

/-- Witness for C6: with an always-failing API, the target `"o/r"` yields
one failure, one call, no samples, and the poll continues. -/
theorem c6_witness :
    (Issues.Collect wApiErr ["o/r"] ⟨[], [], []⟩ =
       Issues.Collect wApiErr [] ⟨["repo"], [], [("o", "r")]⟩) ∧
    (Repos.Collect wApiErr 1 ["o/r"] ⟨[], [], []⟩ =
       Repos.Collect wApiErr 1 [] ⟨["repo"], [], []⟩) :=
  ⟨(c6_transport_error_skips_target wApiErr 1 "o/r" "o" "r" [] ⟨[], [], []⟩ rfl rfl).1,
   (c6_transport_error_skips_target wApiErr 1 "o/r" "o" "r" [] ⟨[], [], []⟩ rfl rfl).2 rfl⟩

/-- C8: for a well-formed target whose name contains no `*`, resolution
fetches the single named repository directly and returns exactly that one
repository. -/
theorem c8_direct_fetch_single (api : Api) (fuel : Nat) (owner repo : String)
    (r : Repository)
    (hstar : containsStar repo = false)
    (hok : api.getRepo owner repo = Except.ok r) :
    Repos.reposByOwnerAndName api fuel owner repo = some (Except.ok [some r]) := by
  simp [Repos.reposByOwnerAndName, hstar, hok]

/-- Witness for C8: target name `"web"` has no `*`; resolution returns the
one fetched repository. -/
theorem c8_witness :
    Repos.reposByOwnerAndName wApiOkEmpty 1 "acme" "web" =
      some (Except.ok [some wMismatchRepo]) :=
  c8_direct_fetch_single wApiOkEmpty 1 "acme" "web" wMismatchRepo rfl rfl

/-- Upstream repository `acme/auth-service` for the spec's glob example. -/
def exAuth : Repository :=
  { fullName := some "acme/auth-service", name := some "auth-service",
    fork := none, forksCount := none, networkCount := none,
    openIssuesCount := none, stargazersCount := none, subscribersCount := none,
    watchersCount := none, size := none, allowRebaseMerge := none,
    allowSquashMerge := none, allowMergeCommit := none, archived := none,
    privateFlag := none, hasIssues := none, hasWiki := none, hasPages := none,
    hasProjects := none, hasDownloads := none,
    pushedAt := some 1, createdAt := some 2, updatedAt := some 3 }

/-- Upstream repository `acme/web` for the spec's glob example. -/
def exWeb : Repository :=
  { fullName := some "acme/web", name := some "web",
    fork := none, forksCount := none, networkCount := none,
    openIssuesCount := none, stargazersCount := none, subscribersCount := none,
    watchersCount := none, size := none, allowRebaseMerge := none,
    allowSquashMerge := none, allowMergeCommit := none, archived := none,
    privateFlag := none, hasIssues := none, hasWiki := none, hasPages := none,
    hasProjects := none, hasDownloads := none,
    pushedAt := some 7, createdAt := some 8, updatedAt := some 9 }

/-- Upstream repository `acme/pay-service` for the spec's glob example. -/
def exPay : Repository :=
  { fullName := some "acme/pay-service", name := some "pay-service",
    fork := none, forksCount := none, networkCount := none,
    openIssuesCount := none, stargazersCount := none, subscribersCount := none,
    watchersCount := none, size := none, allowRebaseMerge := none,
    allowSquashMerge := none, allowMergeCommit := none, archived := none,
    privateFlag := none, hasIssues := none, hasWiki := none, hasPages := none,
    hasProjects := none, hasDownloads := none,
    pushedAt := some 4, createdAt := some 5, updatedAt := some 6 }

/-- An API whose user-scoped search returns the three example repositories
on a single page. -/
def exApi : Api :=
  { listIssues := fun _ _ => .ok [], listPulls := fun _ _ => .ok [],
    getRepo := fun _ _ => .error (),
    search := fun _ _ => .ok ([some exAuth, some exWeb, some exPay], 0) }

/-- C3: a record contributes samples exactly when its full name matches
the target glob (case-sensitive, `*` = any run, anchored); and the spec's
example — target `acme/*-service` against upstream `acme/auth-service`,
`acme/web`, `acme/pay-service` — emits samples for exactly auth-service
and pay-service. -/
theorem c3_glob_resolution (pattern owner : String) (i : Nat) (r : Repository)
    (fn rn : String) (pu cr up : Int)
    (hfn : r.fullName = some fn) (hn : r.name = some rn)
    (hp : r.pushedAt = some pu) (hc : r.createdAt = some cr)
    (hu : r.updatedAt = some up) :
    (∃ ss, Repos.recordSamples pattern owner i r = some ss ∧
       (ss = [] ↔ globMatch pattern fn = false)) ∧
    Repos.Collect exApi 1 ["acme/*-service"] ⟨[], [], []⟩ =
      some { failures := [],
             samples := [
               ⟨"github_repo_pushed_timestamp", 1, ["acme", "auth-service"]⟩,
               ⟨"github_repo_created_timestamp", 2, ["acme", "auth-service"]⟩,
               ⟨"github_repo_updated_timestamp", 3, ["acme", "auth-service"]⟩,
               ⟨"github_repo_all", 0, ["", "", "", "", "", "", ""]⟩,
               ⟨"github_repo_pushed_timestamp", 4, ["acme", "pay-service"]⟩,
               ⟨"github_repo_created_timestamp", 5, ["acme", "pay-service"]⟩,
               ⟨"github_repo_updated_timestamp", 6, ["acme", "pay-service"]⟩,
               ⟨"github_repo_all", 2, ["", "", "", "", "", "", ""]⟩],
             calls := [] } := by
  constructor
  · simp only [Repos.recordSamples, hfn, hn, hp, hc, hu]
    cases hg : globMatch pattern fn
    · simp only [Bool.false_eq_true, if_false]
      exact ⟨[], rfl, by simp⟩
    · simp only [if_true]
      refine ⟨_, rfl, ?_⟩
      simp [List.append_eq_nil]
  · decide

/-- Witness for C3: instantiated at the non-matching record `acme/web`. -/
theorem c3_witness :
    (∃ ss, Repos.recordSamples "acme/*-service" "acme" 1 exWeb = some ss ∧
       (ss = [] ↔ globMatch "acme/*-service" "acme/web" = false)) ∧
    Repos.Collect exApi 1 ["acme/*-service"] ⟨[], [], []⟩ =
      some { failures := [],
             samples := [
               ⟨"github_repo_pushed_timestamp", 1, ["acme", "auth-service"]⟩,
               ⟨"github_repo_created_timestamp", 2, ["acme", "auth-service"]⟩,
               ⟨"github_repo_updated_timestamp", 3, ["acme", "auth-service"]⟩,
               ⟨"github_repo_all", 0, ["", "", "", "", "", "", ""]⟩,
               ⟨"github_repo_pushed_timestamp", 4, ["acme", "pay-service"]⟩,
               ⟨"github_repo_created_timestamp", 5, ["acme", "pay-service"]⟩,
               ⟨"github_repo_updated_timestamp", 6, ["acme", "pay-service"]⟩,
               ⟨"github_repo_all", 2, ["", "", "", "", "", "", ""]⟩],
             calls := [] } :=
  c3_glob_resolution "acme/*-service" "acme" 1 exWeb "acme/web" "web" 7 8 9
    rfl rfl rfl rfl rfl

/-- The search loop, run with enough fuel, performs exactly the chain of
page requests dictated by the API's `NextPage` answers and accumulates the
pages' repositories in call order, stopping at the first response whose
next page is 0. -/
theorem Repos.searchLoop_pages (api : Api) (owner : String) :
    ∀ (n : Nat) (p0 : Nat) (pg : Nat → Nat) (rs : Nat → List (Option Repository))
      (np : Nat → Nat),
      pg 0 = p0 →
      (∀ i, i < n → pg (i + 1) = np i) →
      (∀ i, i ≤ n → api.search owner (pg i) = Except.ok (rs i, np i)) →
      (∀ i, i < n → np i ≠ 0) →
      np n = 0 →
      ∀ fuel, n < fuel →
        Repos.searchLoop api owner fuel p0 =
          some ((List.range (n + 1)).map pg,
                Except.ok (((List.range (n + 1)).map rs).flatten)) := by
  intro n
  induction n with
  | zero =>
    intro p0 pg rs np hpg0 _ hapi _ hlast fuel hfuel
    match fuel, hfuel with
    | fuel + 1, _ =>
      have h0 := hapi 0 (Nat.le_refl 0)
      rw [hpg0] at h0
      simp [Repos.searchLoop, h0, hlast, hpg0, List.range_succ]
  | succ n ih =>
    intro p0 pg rs np hpg0 hpgs hapi hmid hlast fuel hfuel
    match fuel, hfuel with
    | fuel + 1, hfuel =>
      have h0 := hapi 0 (Nat.zero_le _)
      rw [hpg0] at h0
      have hnz : np 0 ≠ 0 := hmid 0 (Nat.succ_pos n)
      have hrec := ih (np 0) (fun i => pg (i + 1)) (fun i => rs (i + 1))
        (fun i => np (i + 1))
        (hpgs 0 (Nat.succ_pos n))
        (fun i hi => hpgs (i + 1) (Nat.succ_lt_succ hi))
        (fun i hi => hapi (i + 1) (Nat.succ_le_succ hi))
        (fun i hi => hmid (i + 1) (Nat.succ_lt_succ hi))
        hlast
        fuel (Nat.lt_of_succ_lt_succ hfuel)
      simp only [Repos.searchLoop, h0, if_neg hnz, hrec]
      rw [List.range_succ_eq_map (n + 1)]
      simp [List.map_map, Function.comp_def, hpg0, Nat.succ_eq_add_one]

/-- C9: assuming the chain of responses reaches a next-page index of 0 at
the n-th call (and not before), the paginated search loop terminates with
any fuel above n: it performs exactly the n+1 page requests of the chain,
accumulates each page's repositories in order, and stops at the response
whose next page is 0. -/
theorem c9_pagination_terminates (api : Api) (owner : String) (n : Nat)
    (pg : Nat → Nat) (rs : Nat → List (Option Repository)) (np : Nat → Nat)
    (hpg0 : pg 0 = 0)
    (hpgs : ∀ i, i < n → pg (i + 1) = np i)
    (hapi : ∀ i, i ≤ n → api.search owner (pg i) = Except.ok (rs i, np i))
    (hmid : ∀ i, i < n → np i ≠ 0)
    (hlast : np n = 0) :
    ∀ fuel, n < fuel →
      Repos.searchLoop api owner fuel 0 =
        some ((List.range (n + 1)).map pg,
              Except.ok (((List.range (n + 1)).map rs).flatten)) ∧
      ((List.range (n + 1)).map pg).length = n + 1 :=
  fun fuel hfuel =>
    ⟨Repos.searchLoop_pages api owner n 0 pg rs np hpg0 hpgs hapi hmid hlast
       fuel hfuel,
     by simp⟩

/-- A two-page search API: page 0 answers next page 5, page 5 answers next
page 0. -/
def c9Api : Api :=
  { listIssues := fun _ _ => .ok [], listPulls := fun _ _ => .ok [],
    getRepo := fun _ _ => .error (),
    search := fun _ p =>
      if p = 0 then .ok ([some exAuth], 5)
      else if p = 5 then .ok ([some exPay], 0) else .error () }

/-- Page chain of `c9Api`: call 0 requests page 0, call 1 requests page 5. -/
def c9pg : Nat → Nat := fun i => if i = 0 then 0 else 5

/-- Page contents of `c9Api` per call. -/
def c9rs : Nat → List (Option Repository) :=
  fun i => if i = 0 then [some exAuth] else [some exPay]

/-- Next-page answers of `c9Api` per call. -/
def c9np : Nat → Nat := fun i => if i = 0 then 5 else 0

/-- Witness for C9: the two-page search terminates after exactly two calls,
having accumulated both pages. -/
theorem c9_witness :
    Repos.searchLoop c9Api "acme" 2 0 =
      some ((List.range 2).map c9pg,
            Except.ok (((List.range 2).map c9rs).flatten)) ∧
    ((List.range 2).map c9pg).length = 2 :=
  c9_pagination_terminates c9Api "acme" 1 c9pg c9rs c9np rfl
    (fun i hi => by interval_cases i; rfl)
    (fun i hi => by interval_cases i <;> rfl)
    (fun i hi => by interval_cases i; simp [c9np])
    rfl 2 (by omega)

/-- C4 fails on the code: the issue (and pull-request) collector does not
resolve patterns at all — it splits the configured entry and passes the
name segment, still containing `*`, straight to the list endpoint. -/
theorem c4_counterexample :
    Issues.Collect wApiOkEmpty ["acme/*-service"] ⟨[], [], []⟩ =
      some { failures := [], samples := [], calls := [("acme", "*-service")] } ∧
    PullRequests.Collect wApiOkEmpty ["acme/*-service"] ⟨[], [], []⟩ =
      some { failures := [], samples := [], calls := [("acme", "*-service")] } ∧
    containsStar "*-service" = true :=
  ⟨rfl, rfl, rfl⟩

/-- The search pagination loop reads nothing of the API but its search
endpoint. -/
theorem Repos.searchLoop_only_search (api api2 : Api) (owner : String)
    (h : api2.search = api.search) :
    ∀ fuel page,
      Repos.searchLoop api2 owner fuel page = Repos.searchLoop api owner fuel page := by
  intro fuel
  induction fuel with
  | zero => intro page; rfl
  | succ fuel ih =>
    intro page
    simp only [Repos.searchLoop, h, ih]

/-- C4 amended: only the repository collector resolves targets before
fetching; the issue and pull-request collectors pass the raw `owner` and
`name` segments of the configured entry to their list endpoints, even when
the name still contains `*`.  The repository collector's resolution of a
glob target goes exclusively through the search endpoint. -/
theorem c4_amended_no_resolution_in_list_collectors (api : Api) (fuel : Nat)
    (name owner repo : String) (acc : Output)
    (hs : splitSlash name = [owner, repo]) :
    (∀ out, Issues.collectOne api acc name = some out →
       out.calls = acc.calls ++ [(owner, repo)]) ∧
    (∀ out, PullRequests.collectOne api acc name = some out →
       out.calls = acc.calls ++ [(owner, repo)]) ∧
    (containsStar repo = true → ∀ api2 : Api, api2.search = api.search →
       Repos.reposByOwnerAndName api2 fuel owner repo =
         Repos.reposByOwnerAndName api fuel owner repo) := by
  refine ⟨?_, ?_, ?_⟩
  · intro out h
    simp only [Issues.collectOne, hs] at h
    split at h
    · cases h; rfl
    · split at h
      · cases h
      · cases h; rfl
  · intro out h
    simp only [PullRequests.collectOne, hs] at h
    split at h
    · cases h; rfl
    · split at h
      · cases h
      · cases h; rfl
  · intro hstar api2 hsearch
    simp only [Repos.reposByOwnerAndName, hstar, if_true]
    rw [Repos.searchLoop_only_search api api2 owner hsearch fuel 0]

/-- `wApiOkEmpty` with a different single-get endpoint (same search). -/
def wApiStar : Api :=
  { wApiOkEmpty with getRepo := fun _ _ => .error () }

/-- Witness for the amended C4, at the glob entry `"acme/*-service"`. -/
theorem c4_amended_witness :
    ({ failures := ([] : List String), samples := ([] : List Sample),
       calls := [("acme", "*-service")] } : Output).calls =
      ([] : List (String × String)) ++ [("acme", "*-service")] ∧
    Repos.reposByOwnerAndName wApiStar 1 "acme" "*-service" =
      Repos.reposByOwnerAndName wApiOkEmpty 1 "acme" "*-service" :=
  ⟨(c4_amended_no_resolution_in_list_collectors wApiOkEmpty 1 "acme/*-service"
      "acme" "*-service" ⟨[], [], []⟩ rfl).1
      { failures := [], samples := [], calls := [("acme", "*-service")] } rfl,
   (c4_amended_no_resolution_in_list_collectors wApiOkEmpty 1 "acme/*-service"
      "acme" "*-service" ⟨[], [], []⟩ rfl).2.2 rfl wApiStar rfl⟩

/-- C7 fails on the code: all three collectors increment the shared
failure counter with the same label value `"repo"`, so their failures are
not distinguishable by label. -/
theorem c7_counterexample :
    Issues.Collect wApiOkEmpty ["justaname"] ⟨[], [], []⟩ =
      some { failures := ["repo"], samples := [], calls := [] } ∧
    PullRequests.Collect wApiOkEmpty ["justaname"] ⟨[], [], []⟩ =
      some { failures := ["repo"], samples := [], calls := [] } ∧
    Repos.Collect wApiOkEmpty 1 ["justaname"] ⟨[], [], []⟩ =
      some { failures := ["repo"], samples := [], calls := [] } :=
  ⟨rfl, rfl, rfl⟩

/-- Each issue-collector iteration either leaves the failure list alone or
appends exactly one `"repo"` increment. -/
theorem issuesCollectOneFailures (api : Api) (acc : Output) (name : String)
    (out : Output) (h : Issues.collectOne api acc name = some out) :
    out.failures = acc.failures ∨ out.failures = acc.failures ++ ["repo"] := by
  unfold Issues.collectOne at h
  split at h
  · split at h
    · cases h; right; rfl
    · split at h
      · cases h
      · cases h; left; rfl
  · cases h; right; rfl

/-- Each pull-request-collector iteration either leaves the failure list
alone or appends exactly one `"repo"` increment. -/
theorem pullsCollectOneFailures (api : Api) (acc : Output) (name : String)
    (out : Output) (h : PullRequests.collectOne api acc name = some out) :
    out.failures = acc.failures ∨ out.failures = acc.failures ++ ["repo"] := by
  unfold PullRequests.collectOne at h
  split at h
  · split at h
    · cases h; right; rfl
    · split at h
      · cases h
      · cases h; left; rfl
  · cases h; right; rfl

/-- Each repository-collector iteration either leaves the failure list
alone or appends exactly one `"repo"` increment. -/
theorem reposCollectOneFailures (api : Api) (fuel : Nat) (acc : Output)
    (name : String) (out : Output)
    (h : Repos.collectOne api fuel acc name = some out) :
    out.failures = acc.failures ∨ out.failures = acc.failures ++ ["repo"] := by
  unfold Repos.collectOne at h
  split at h
  · split at h
    · cases h
    · cases h; right; rfl
    · split at h
      · cases h
      · cases h; left; rfl
  · cases h; right; rfl

/-- Over a whole issue-collector poll, every failure increment carries the
label `"repo"`. -/
theorem issuesCollectFailuresAllRepo (api : Api) :
    ∀ (names : List String) (acc out : Output),
      Issues.Collect api names acc = some out →
      acc.failures.all (fun l => l == "repo") = true →
      out.failures.all (fun l => l == "repo") = true := by
  intro names
  induction names with
  | nil =>
    intro acc out h hacc
    simp only [Issues.Collect, Option.some.injEq] at h
    subst h
    exact hacc
  | cons name rest ih =>
    intro acc out h hacc
    unfold Issues.Collect at h
    cases hc : Issues.collectOne api acc name with
    | none => rw [hc] at h; cases h
    | some acc' =>
      rw [hc] at h
      refine ih acc' out h ?_
      rcases issuesCollectOneFailures api acc name acc' hc with h1 | h1 <;>
        simp [h1, List.all_append, hacc]

/-- Over a whole pull-request-collector poll, every failure increment
carries the label `"repo"`. -/
theorem pullsCollectFailuresAllRepo (api : Api) :
    ∀ (names : List String) (acc out : Output),
      PullRequests.Collect api names acc = some out →
      acc.failures.all (fun l => l == "repo") = true →
      out.failures.all (fun l => l == "repo") = true := by
  intro names
  induction names with
  | nil =>
    intro acc out h hacc
    simp only [PullRequests.Collect, Option.some.injEq] at h
    subst h
    exact hacc
  | cons name rest ih =>
    intro acc out h hacc
    unfold PullRequests.Collect at h
    cases hc : PullRequests.collectOne api acc name with
    | none => rw [hc] at h; cases h
    | some acc' =>
      rw [hc] at h
      refine ih acc' out h ?_
      rcases pullsCollectOneFailures api acc name acc' hc with h1 | h1 <;>
        simp [h1, List.all_append, hacc]

/-- Over a whole repository-collector poll, every failure increment
carries the label `"repo"`. -/
theorem reposCollectFailuresAllRepo (api : Api) (fuel : Nat) :
    ∀ (names : List String) (acc out : Output),
      Repos.Collect api fuel names acc = some out →
      acc.failures.all (fun l => l == "repo") = true →
      out.failures.all (fun l => l == "repo") = true := by
  intro names
  induction names with
  | nil =>
    intro acc out h hacc
    simp only [Repos.Collect, Option.some.injEq] at h
    subst h
    exact hacc
  | cons name rest ih =>
    intro acc out h hacc
    unfold Repos.Collect at h
    cases hc : Repos.collectOne api fuel acc name with
    | none => rw [hc] at h; cases h
    | some acc' =>
      rw [hc] at h
      refine ih acc' out h ?_
      rcases reposCollectOneFailures api fuel acc name acc' hc with h1 | h1 <;>
        simp [h1, List.all_append, hacc]

/-- C7 amended: all three collectors count configuration and transport
failures in the shared counter under the single label value `"repo"`
(copied from the repository collector), so failures of different collector
kinds are not distinguishable by the counter's label values. -/
theorem c7_amended_all_labels_repo (api : Api) (fuel : Nat) (names : List String)
    (outI outP outR : Output)
    (hI : Issues.Collect api names ⟨[], [], []⟩ = some outI)
    (hP : PullRequests.Collect api names ⟨[], [], []⟩ = some outP)
    (hR : Repos.Collect api fuel names ⟨[], [], []⟩ = some outR) :
    outI.failures.all (fun l => l == "repo") = true ∧
    outP.failures.all (fun l => l == "repo") = true ∧
    outR.failures.all (fun l => l == "repo") = true :=
  ⟨issuesCollectFailuresAllRepo api names _ outI hI rfl,
   pullsCollectFailuresAllRepo api names _ outP hP rfl,
   reposCollectFailuresAllRepo api fuel names _ outR hR rfl⟩

/-- Witness for the amended C7: a poll over a malformed and a valid entry
yields failure labels that are all `"repo"`, for each collector. -/
theorem c7_amended_witness :
    (["repo"] : List String).all (fun l => l == "repo") = true ∧
    (["repo"] : List String).all (fun l => l == "repo") = true ∧
    (["repo"] : List String).all (fun l => l == "repo") = true :=
  c7_amended_all_labels_repo wApiOkEmpty 1 ["justaname", "o/r"]
    ⟨["repo"], [], [("o", "r")]⟩ ⟨["repo"], [], [("o", "r")]⟩ ⟨["repo"], [], []⟩
    rfl rfl rfl
